import Mathlib

/-!
Shallow embedding of `src/ml_things/plot_functions.py` (functions
`plot_array`, `plot_dict`, `plot_confusion_matrix`) and proofs about it.

Modelling conventions:
* Python dynamic arguments become small sum types (`PyArray`, `PyKey`,
  `PyDictArg`) so that the `isinstance` checks can be stated.
* Calls into matplotlib that change observable state or produce output
  are recorded as an effect trace (`PlotEffect` / `CMEffect`); purely
  presentational calls (`plt.title`, `plt.xlabel`, `plt.grid`,
  `tight_layout`, figure resizing, console prints) are not traced since no
  claim mentions them and they occur only after all validation.
* The active matplotlib style sheet (`plt.style.use`) is the one piece of
  global library state the spec mentions; it is threaded as `PltState`.
* Numeric values are ℚ; label values are ℤ.  `sklearn.metrics.confusion_matrix`
  is an external library (not code of this repository); it is modelled by its
  documented semantics: labels are the sorted distinct values occurring in
  `y_true` or `y_pred`, and entry (i, j) counts samples with true label i and
  predicted label j.  Normalization divides each row by its row sum; where
  NumPy would produce NaN on a zero row sum, rational division by zero
  yields 0 — in both semantics such a row does not sum to 1.
-/

/-- A Python value passed where a list of numbers is expected:
a `list`, a `np.ndarray`, or anything else. -/
inductive PyArray where
  | pyList (xs : List ℚ)
  | ndarray (xs : List ℚ)
  | other
  deriving DecidableEq

/-- A Python value used as a dictionary key: a `str` or anything else. -/
inductive PyKey where
  | str (s : String)
  | other
  deriving DecidableEq

/-- The `dict_arrays` argument of `plot_dict`: a dict (as an association
list, preserving Python dict insertion order) or a non-dict value. -/
inductive PyDictArg where
  | dict (items : List (PyKey × PyArray))
  | notDict
  deriving DecidableEq

/-- Global matplotlib state relevant to the spec: the active style sheet. -/
structure PltState where
  activeStyle : String
  deriving DecidableEq

/-- Observable matplotlib calls made by `plot_array` / `plot_dict`. -/
inductive PlotEffect where
  | styleUse (s : String)
  | plotLine (linestyle : String) (label : Option String)
  | savefig (path : String) (dpi : ℕ)
  | showPlot
  deriving DecidableEq

/-- The exceptions the module can raise. -/
inductive PlotError where
  | valueError (msg : String)
  | assertionError
  | indexError
  deriving DecidableEq

/-- Message of `raise ValueError` at plot_functions.py:46. -/
def arrayMsg : String := "array needs to be a list of values"

/-- Message of `raise ValueError` at plot_functions.py:119. -/
def dictMsg : String := "array needs to be a dictionary of values"

/-- Message of `raise ValueError` at plot_functions.py:124. -/
def keyMsg : String := "dict_arrays needs string keys"

/-- Message of `raise ValueError` at plot_functions.py:127. -/
def valMsg : String := "dict_arrays needs lists values"

/-- Message of the style-sheet `ValueError` (plot_functions.py:53, 134). -/
def styleMsg (s : String) : String := s ++ " is not in the supported styles"

/-- Message of the line-style `ValueError` (plot_functions.py:61, 148). -/
def linestyleMsg (s : String) : String := s ++ " is not in the styles"

/-- `linestyles = ['-', '--', '-.', ':']` (plot_functions.py:56, 137). -/
def linestyles : List String := ["-", "--", "-.", ":"]

/-- `isinstance(v, list)`. -/
def isList : PyArray → Bool
  | .pyList _ => true
  | _ => false

/-- `isinstance(v, np.ndarray)`. -/
def isNdarray : PyArray → Bool
  | .ndarray _ => true
  | _ => false

/-- `isinstance(k, str)`. -/
def isStr : PyKey → Bool
  | .str _ => true
  | _ => false

/-- `plot_array` (plot_functions.py:22-94).  Parameters that only set text or
figure geometry (`step_size`, `use_title`, `use_xlabel`, `use_ylabel`,
`use_grid`, `width`, `height`) are omitted; they are used only after all
validation and affect no traced effect.  `available` models
`plt.style.available`.  Returns (result, effect trace, final plt state). -/
def plot_array (available : List String) (st : PltState) (array : PyArray)
    (use_label : Option String) (style_sheet use_linestyle : String)
    (use_dpi : ℕ) (path : Option String) (show_plot : Bool) :
    Except PlotError Unit × List PlotEffect × PltState :=
  -- line 44: if not isinstance(array, list) or isinstance(array, np.ndarray)
  if !isList array || isNdarray array then
    (.error (.valueError arrayMsg), [], st)
  -- line 48: if style_sheet in plt.style.available
  else if style_sheet ∈ available then
    -- line 50: plt.style.use(style_sheet)  (global state changes here)
    let st1 : PltState := ⟨style_sheet⟩
    -- line 59: if use_linestyle not in linestyles
    if use_linestyle ∉ linestyles then
      (.error (.valueError (linestyleMsg use_linestyle)),
        [.styleUse style_sheet], st1)
    else
      -- lines 64-92: plot, save if path set, show if show_plot
      (.ok (),
        [.styleUse style_sheet, .plotLine use_linestyle use_label]
          ++ (match path with
              | some p => [.savefig p use_dpi]
              | none => [])
          ++ (if show_plot then [.showPlot] else []),
        st1)
  else
    -- line 53: raise ValueError (style sheet not supported)
    (.error (.valueError (styleMsg style_sheet)), [], st)

/-- The per-item validation loop of `plot_dict` (plot_functions.py:120-127):
string keys, list (and not ndarray) values; raises at the first offender. -/
def checkItems : List (PyKey × PyArray) → Except PlotError Unit
  | [] => .ok ()
  | (k, v) :: rest =>
    if !isStr k then .error (.valueError keyMsg)
    else if !isList v || isNdarray v then .error (.valueError valMsg)
    else checkItems rest

/-- Label passed to `plt.plot` for a dict entry (the key; only reached for
string keys, but total). -/
def keyLabel : PyKey → Option String
  | .str s => some s
  | .other => none

/-- The plotting loop of `plot_dict` (plot_functions.py:152-156):
`use_linestyles[index]` raises IndexError when the index is out of range;
effects produced before the failing index are kept. -/
def plotSeries (lss : List String) :
    List (PyKey × PyArray) → ℕ → Except PlotError Unit × List PlotEffect
  | [], _ => (.ok (), [])
  | (k, _) :: rest, idx =>
    match lss.get? idx with
    | none => (.error .indexError, [])
    | some l =>
      let r := plotSeries lss rest (idx + 1)
      (r.1, .plotLine l (keyLabel k) :: r.2)

/-- `plot_dict` (plot_functions.py:97-182).  Same conventions as
`plot_array`; `use_linestyles = none` models the Python default `None`. -/
def plot_dict (available : List String) (st : PltState)
    (dict_arrays : PyDictArg) (style_sheet : String)
    (use_linestyles : Option (List String)) (use_dpi : ℕ)
    (path : Option String) (show_plot : Bool) :
    Except PlotError Unit × List PlotEffect × PltState :=
  match dict_arrays with
  -- line 117: if not isinstance(dict_arrays, dict)
  | .notDict => (.error (.valueError dictMsg), [], st)
  | .dict items =>
    -- lines 120-127: per-item key/value validation
    match checkItems items with
    | .error e => (.error e, [], st)
    | .ok () =>
      -- line 129: if style_sheet in plt.style.available
      if style_sheet ∈ available then
        -- line 131: plt.style.use(style_sheet)
        let st1 : PltState := ⟨style_sheet⟩
        -- lines 139-148: default or validate use_linestyles
        let lss := match use_linestyles with
          | none => List.replicate items.length "-"
          | some l => l
        -- the Python loop raises at the first linestyle not in `linestyles`
        let badLs := match use_linestyles with
          | none => none
          | some l => l.find? (fun s => decide (s ∉ linestyles))
        match badLs with
        | some b =>
          (.error (.valueError (linestyleMsg b)), [.styleUse style_sheet], st1)
        | none =>
          -- lines 152-156: plot every series
          let r := plotSeries lss items 0
          match r.1 with
          | .error e => (.error e, .styleUse style_sheet :: r.2, st1)
          | .ok () =>
            (.ok (),
              (.styleUse style_sheet :: r.2)
                ++ (match path with
                    | some p => [.savefig p use_dpi]
                    | none => [])
                ++ (if show_plot then [.showPlot] else []),
              st1)
      else
        -- line 134: raise ValueError (style sheet not supported)
        (.error (.valueError (styleMsg style_sheet)), [], st)

/-- Sorted distinct labels occurring in `y_true` or `y_pred`; the label
axis used by `sklearn.metrics.confusion_matrix` when `labels=None`. -/
def cmLabels (y_true y_pred : List ℤ) : List ℤ :=
  List.insertionSort (· ≤ ·) ((y_true ++ y_pred).dedup)

/-- `sklearn.metrics.confusion_matrix(y_true, y_pred)` (external library,
modelled by its documented semantics): entry (i, j) counts samples whose
true label is the i-th and predicted label the j-th of `cmLabels`. -/
def confusionMatrix (y_true y_pred : List ℤ) : List (List ℕ) :=
  (cmLabels y_true y_pred).map fun t =>
    (cmLabels y_true y_pred).map fun p =>
      ((y_true.zip y_pred).filter fun tp => decide (tp.1 = t ∧ tp.2 = p)).length

/-- `cm.astype('float') / cm.sum(axis=1)[:, np.newaxis]`
(plot_functions.py:231): each row divided by its row sum.  A zero row sum
gives NaN in NumPy; here rational division by zero gives 0 — in both
semantics such a row does not sum to 1. -/
def normalizeCM (cm : List (List ℕ)) : List (List ℚ) :=
  cm.map fun row => row.map fun c : ℕ => (c : ℚ) / (row.sum : ℚ)

/-- Tick labels handed to `ax.set` (plot_functions.py:246): either the
caller-supplied class names, or (when `classes` is empty) the distinct
labels of `y_true` (Python: `set(y_true)`). -/
inductive TickLabels where
  | fromClasses (cs : List String)
  | fromTrueLabels (ls : List ℤ)
  deriving DecidableEq

/-- Observable effects of `plot_confusion_matrix`. -/
inductive CMEffect where
  | computeCM
  | render
  | savefig (path : String) (dpi : ℕ)
  deriving DecidableEq

deriving instance DecidableEq for Except

/-- Message of `raise ValueError` at plot_functions.py:213. -/
def lenMsg : String := "y_true needs to have same length as y_pred"

/-- Result of `plot_confusion_matrix`: the returned matrix (or the raised
exception), the tick labels used (none when the call raised before the
rendering), and the effect trace. -/
structure CMResult where
  result : Except PlotError (List (List ℚ))
  ticks : Option TickLabels
  effects : List CMEffect
  deriving DecidableEq

/-- `plot_confusion_matrix` (plot_functions.py:185-268).  `classes` is the
`classes` argument already coerced by `list(classes)` (the default `''`
gives `[]`); presentation-only parameters (`title`, `cmap`, `verbose`,
`magnify`) are omitted.  The matrix is returned over ℚ (counts cast, or
row-normalized when `normalize`). -/
def plot_confusion_matrix (y_true y_pred : List ℤ) (classes : List String)
    (normalize : Bool) (image : Option String) (dpi : ℕ) : CMResult :=
  -- line 211: if len(y_true) != len(y_pred): raise ValueError
  if y_true.length ≠ y_pred.length then
    ⟨.error (.valueError lenMsg), none, []⟩
  -- lines 217-218: if classes: assert len(set(y_true)) == len(classes)
  else if classes ≠ [] ∧ y_true.dedup.length ≠ classes.length then
    ⟨.error .assertionError, none, []⟩
  else
    -- line 220: classes = set(y_true) when the argument was empty
    let ticks : TickLabels :=
      if classes = [] then .fromTrueLabels y_true.dedup
      else .fromClasses classes
    -- line 228: cm = confusion_matrix(y_true, y_pred)
    let cm := confusionMatrix y_true y_pred
    -- lines 230-231: row normalization when requested
    let M : List (List ℚ) :=
      if normalize then normalizeCM cm else cm.map (·.map (Nat.cast))
    -- lines 239-261: render heatmap; lines 266-267: save when image set
    ⟨.ok M, some ticks,
      [.computeCM, .render]
        ++ (match image with
            | some p => [.savefig p dpi]
            | none => [])⟩

/-- True for effects that only change the active style sheet (no rendering,
no file output). -/
def isStyleUse : PlotEffect → Bool
  | .styleUse _ => true
  | _ => false

/-- A well-typed `dict_arrays`: string keys, Python-list values. -/
def mkItems (kvs : List (String × List ℚ)) : List (PyKey × PyArray) :=
  kvs.map fun kv => (.str kv.1, .pyList kv.2)

lemma sum_map_cast_div (row : List ℕ) (s : ℚ) :
    (row.map fun c : ℕ => (c : ℚ) / s).sum = (row.sum : ℚ) / s := by
  induction row with
  | nil => simp
  | cons a t ih =>
    simp only [List.map_cons, List.sum_cons, ih, Nat.cast_add, add_div]

lemma checkItems_mkItems (kvs : List (String × List ℚ)) :
    checkItems (mkItems kvs) = .ok () := by
  induction kvs with
  | nil => rfl
  | cons hd tl ih => simpa [mkItems, checkItems, isStr, isList, isNdarray] using ih

lemma checkItems_err (items : List (PyKey × PyArray)) (kv : PyKey × PyArray)
    (hkeys : ∀ p ∈ items, isStr p.1 = true) (hmem : kv ∈ items)
    (hbad : (!isList kv.2 || isNdarray kv.2) = true) :
    checkItems items = .error (.valueError valMsg) := by
  induction items with
  | nil => simp at hmem
  | cons hd tl ih =>
    obtain ⟨k, v⟩ := hd
    have hk : isStr k = true := hkeys (k, v) (by simp)
    by_cases hb : (!isList v || isNdarray v) = true
    · simp [checkItems, hk, hb]
    · have hrest : checkItems ((k, v) :: tl) = checkItems tl := by
        simp [checkItems, hk, hb]
      rcases List.mem_cons.mp hmem with heq | hm
      · rw [heq] at hbad; exact absurd hbad hb
      · rw [hrest]
        exact ih (fun p hp => hkeys p (List.mem_cons_of_mem _ hp)) hm

lemma plotSeries_error_eq (lss : List String) :
    ∀ (items : List (PyKey × PyArray)) (idx : ℕ) (e : PlotError),
    (plotSeries lss items idx).1 = .error e → e = .indexError
  | [], _, _, h => by simp [plotSeries] at h
  | (k, v) :: rest, idx, e, h => by
    unfold plotSeries at h
    cases hg : lss.get? idx with
    | none => rw [hg] at h; cases h; rfl
    | some l =>
      rw [hg] at h
      exact plotSeries_error_eq lss rest (idx + 1) e h

lemma plotSeries_short (lss : List String) :
    ∀ (items : List (PyKey × PyArray)) (idx : ℕ),
    lss.length - idx < items.length →
    (plotSeries lss items idx).1 = .error .indexError ∧
    (plotSeries lss items idx).2.length = lss.length - idx
  | [], idx, h => absurd h (by simp)
  | (k, v) :: rest, idx, h => by
    by_cases hidx : idx < lss.length
    · have hg : lss.get? idx = some (lss.get ⟨idx, hidx⟩) := List.get?_eq_get hidx
      have hrec := plotSeries_short lss rest (idx + 1) (by
        simp only [List.length_cons] at h; omega)
      unfold plotSeries
      rw [hg]
      refine ⟨hrec.1, ?_⟩
      simp only [List.length_cons, hrec.2]
      omega
    · have hg : lss.get? idx = none := List.get?_eq_none.mpr (by omega)
      unfold plotSeries
      rw [hg]
      exact ⟨rfl, by simp; omega⟩

lemma plotSeries_ok (lss : List String) :
    ∀ (items : List (PyKey × PyArray)) (idx : ℕ),
    idx + items.length ≤ lss.length →
    (plotSeries lss items idx).1 = .ok () ∧
    ∀ i (hi : i < items.length), ∃ l, lss.get? (idx + i) = some l ∧
      .plotLine l (keyLabel (items.get ⟨i, hi⟩).1) ∈ (plotSeries lss items idx).2
  | [], idx, _ => ⟨rfl, fun i hi => absurd hi (by simp)⟩
  | (k, v) :: rest, idx, h => by
    have hidx : idx < lss.length := by
      simp only [List.length_cons] at h; omega
    have hg : lss.get? idx = some (lss.get ⟨idx, hidx⟩) := List.get?_eq_get hidx
    have hrec := plotSeries_ok lss rest (idx + 1) (by
      simp only [List.length_cons] at h; omega)
    unfold plotSeries
    rw [hg]
    refine ⟨hrec.1, ?_⟩
    intro i hi
    cases i with
    | zero =>
      refine ⟨lss.get ⟨idx, hidx⟩, by rw [Nat.add_zero]; exact hg, ?_⟩
      exact List.mem_cons_self _ _
    | succ j =>
      have hj : j < rest.length := by simpa [Nat.succ_lt_succ_iff] using hi
      obtain ⟨l, hl, hm⟩ := hrec.2 j hj
      refine ⟨l, ?_, List.mem_cons_of_mem _ hm⟩
      rw [show idx + (j + 1) = idx + 1 + j by omega]
      exact hl

/-- C1: for every pair of label sequences of different lengths,
`plot_confusion_matrix` raises ValueError before computing or rendering
anything: the result is the length error, no tick labels were chosen, and
the effect trace is empty. -/
theorem C1_length_mismatch_rejected (y_true y_pred : List ℤ)
    (classes : List String) (normalize : Bool) (image : Option String)
    (dpi : ℕ) (hlen : y_true.length ≠ y_pred.length) :
    plot_confusion_matrix y_true y_pred classes normalize image dpi =
      ⟨.error (.valueError lenMsg), none, []⟩ := by
  unfold plot_confusion_matrix
  rw [if_pos hlen]

theorem C1_length_mismatch_witness :
    ([0, 1, 1, 0] : List ℤ).length ≠ ([0, 1, 0] : List ℤ).length ∧
    plot_confusion_matrix [0, 1, 1, 0] [0, 1, 0] [] false none 50 =
      ⟨.error (.valueError lenMsg), none, []⟩ :=
  ⟨by decide,
   C1_length_mismatch_rejected [0, 1, 1, 0] [0, 1, 0] [] false none 50
     (by decide)⟩

/-- C2: for y_true=[0,1,1,0], y_pred=[0,1,0,0] and normalize=False,
`plot_confusion_matrix` returns the computed confusion matrix, and it is
the standard 2x2 count matrix [[2,0],[1,1]] (row = true class, column =
predicted class). -/
theorem C2_concrete_confusion_matrix :
    (plot_confusion_matrix [0, 1, 1, 0] [0, 1, 0, 0] [] false none 50).result =
      .ok [[2, 0], [1, 1]] := by decide

/-- C4: a `plot_array` input that is neither a list nor an ndarray is
rejected with ValueError; nothing is plotted and the plotting state is
unchanged. -/
theorem C4_non_collection_rejected (available : List String) (st : PltState)
    (use_label : Option String) (style_sheet use_linestyle : String)
    (use_dpi : ℕ) (path : Option String) (show_plot : Bool) :
    plot_array available st .other use_label style_sheet use_linestyle
      use_dpi path show_plot = (.error (.valueError arrayMsg), [], st) := by
  simp [plot_array, isList, isNdarray]

/-- C8: every ndarray argument to `plot_array` is rejected with ValueError
(the type check at line 44 rejects ndarrays together with every non-list),
and the per-value check of `plot_dict` (line 125) rejects a dict containing
an ndarray value the same way. -/
theorem C8_ndarray_rejected (available : List String) (st : PltState)
    (xs : List ℚ) (items : List (PyKey × PyArray)) (kv : PyKey × PyArray)
    (use_label : Option String) (style_sheet ls : String)
    (ulss : Option (List String)) (use_dpi : ℕ) (path : Option String)
    (show_plot : Bool)
    (hkeys : ∀ p ∈ items, isStr p.1 = true) (hmem : kv ∈ items)
    (hnd : isNdarray kv.2 = true) :
    (plot_array available st (.ndarray xs) use_label style_sheet ls use_dpi
        path show_plot).1 = .error (.valueError arrayMsg) ∧
    (plot_dict available st (.dict items) style_sheet ulss use_dpi path
        show_plot).1 = .error (.valueError valMsg) := by
  constructor
  · simp [plot_array, isList, isNdarray]
  · have hchk := checkItems_err items kv hkeys hmem (by simp [hnd])
    simp [plot_dict, hchk]

theorem C8_ndarray_witness :
    (plot_array [] ⟨"c"⟩ (.ndarray [1]) none "g" "-" 20 none false).1 =
      .error (.valueError arrayMsg) ∧
    (plot_dict [] ⟨"c"⟩ (.dict [(.str "a", .ndarray [1])]) "g" none 20 none
        false).1 = .error (.valueError valMsg) :=
  C8_ndarray_rejected [] ⟨"c"⟩ [1] [(.str "a", .ndarray [1])]
    (.str "a", .ndarray [1]) none "g" "-" none 20 none false
    (by decide) (by decide) (by decide)

/-- C9: a `plot_dict` call whose `use_linestyles` has only supported styles
but fewer entries than the dict passes validation and fails with an
IndexError during the plotting loop: the trace holds the style change plus
one line per available linestyle before the out-of-range access. -/
theorem C9_short_linestyles_index_error (available : List String)
    (st : PltState) (kvs : List (String × List ℚ)) (style_sheet : String)
    (lss : List String) (use_dpi : ℕ) (path : Option String)
    (show_plot : Bool)
    (hsty : style_sheet ∈ available) (hall : ∀ l ∈ lss, l ∈ linestyles)
    (hshort : lss.length < kvs.length) :
    (plot_dict available st (.dict (mkItems kvs)) style_sheet (some lss)
        use_dpi path show_plot).1 = .error .indexError ∧
    (plot_dict available st (.dict (mkItems kvs)) style_sheet (some lss)
        use_dpi path show_plot).2.1.length = lss.length + 1 := by
  have hchk := checkItems_mkItems kvs
  have hfind : lss.find? (fun s => !decide (s ∈ linestyles)) = none :=
    List.find?_eq_none.mpr (fun x hx => by simpa using hall x hx)
  have hser := plotSeries_short lss (mkItems kvs) 0 (by
    simpa [mkItems] using hshort)
  constructor
  · simp [plot_dict, hchk, hfind, hsty, hser.1]
  · simp [plot_dict, hchk, hfind, hsty, hser.1, hser.2]

theorem C9_short_linestyles_witness :
    ("ggplot" ∈ ["ggplot"]) ∧
    (plot_dict ["ggplot"] ⟨"c"⟩ (.dict (mkItems [("a", [1]), ("b", [2])]))
        "ggplot" (some ["-"]) 20 none false).1 = .error .indexError ∧
    (plot_dict ["ggplot"] ⟨"c"⟩ (.dict (mkItems [("a", [1]), ("b", [2])]))
        "ggplot" (some ["-"]) 20 none false).2.1.length = 2 :=
  ⟨by decide,
   (C9_short_linestyles_index_error ["ggplot"] ⟨"c"⟩ [("a", [1]), ("b", [2])]
      "ggplot" ["-"] 20 none false (by decide) (by decide) (by decide)).1,
   (C9_short_linestyles_index_error ["ggplot"] ⟨"c"⟩ [("a", [1]), ("b", [2])]
      "ggplot" ["-"] 20 none false (by decide) (by decide) (by decide)).2⟩

/-- C10: with equal-length label lists, a non-empty `classes` whose length
differs from the number of distinct y_true labels fails via the assertion
(AssertionError, not the ValueError used for the length check); with empty
`classes` the tick labels are the distinct y_true labels. -/
theorem C10_classes_assert_and_default_ticks (y_true y_pred : List ℤ)
    (classes : List String) (normalize : Bool) (image : Option String)
    (dpi : ℕ) (hlen : y_true.length = y_pred.length) :
    (classes ≠ [] → y_true.dedup.length ≠ classes.length →
      (plot_confusion_matrix y_true y_pred classes normalize image
          dpi).result = .error .assertionError) ∧
    (classes = [] →
      (plot_confusion_matrix y_true y_pred classes normalize image
          dpi).ticks = some (.fromTrueLabels y_true.dedup)) := by
  constructor
  · intro hne hcount
    unfold plot_confusion_matrix
    rw [if_neg (by simp [hlen]), if_pos ⟨hne, hcount⟩]
  · intro hcl
    subst hcl
    unfold plot_confusion_matrix
    rw [if_neg (by simp [hlen]), if_neg (by simp)]
    simp

theorem C10_classes_witness :
    (plot_confusion_matrix [0, 1, 1, 0] [0, 1, 0, 0] ["a"] false none
        50).result = .error .assertionError ∧
    (plot_confusion_matrix [0, 1, 1, 0] [0, 1, 0, 0] [] false none
        50).ticks = some (.fromTrueLabels (([0, 1, 1, 0] : List ℤ).dedup)) :=
  ⟨(C10_classes_assert_and_default_ticks [0, 1, 1, 0] [0, 1, 0, 0] ["a"]
      false none 50 (by decide)).1 (by decide) (by decide),
   (C10_classes_assert_and_default_ticks [0, 1, 1, 0] [0, 1, 0, 0] []
      false none 50 (by decide)).2 rfl⟩

/-- C3 counterexample: with y_true=[0,0], y_pred=[1,1] and normalize=True the
call returns normally (label 1 occurs only in y_pred, so its count row is
all zero), yet the second row of the returned matrix does not sum to 1:
the zero row sum makes its entries 0/0 (NaN in NumPy, 0 in ℚ). -/
theorem C3_zero_row_counterexample :
    (plot_confusion_matrix [0, 0] [1, 1] [] true none 50).result =
      .ok [[0, 1], [0, 0]] ∧
    ([[(0 : ℚ), 1], [0, 0]].getD 1 []).sum ≠ 1 := by
  constructor
  · have h1 : confusionMatrix [0, 0] [1, 1] = [[0, 2], [0, 0]] := by decide
    unfold plot_confusion_matrix
    norm_num [h1, normalizeCM]
  · norm_num

/-- C3 (amended): for every normalize=True call of `plot_confusion_matrix`
that returns normally, the returned matrix is the count matrix with each
row divided by that row's sum, and every row whose count row sum is
nonzero normalizes to a row summing to 1 (a row whose true label never
occurs in y_true has row sum 0 and does not). -/
theorem C3_normalized_rows (y_true y_pred : List ℤ) (classes : List String)
    (image : Option String) (dpi : ℕ) (M : List (List ℚ))
    (hok : (plot_confusion_matrix y_true y_pred classes true image
        dpi).result = .ok M) :
    M = normalizeCM (confusionMatrix y_true y_pred) ∧
    ∀ row ∈ confusionMatrix y_true y_pred, row.sum ≠ 0 →
      (row.map fun c : ℕ => (c : ℚ) / (row.sum : ℚ)).sum = 1 := by
  constructor
  · unfold plot_confusion_matrix at hok
    split at hok
    · simp at hok
    · split at hok
      · simp at hok
      · simp at hok
        exact hok.symm
  · intro row hrow hsum
    rw [sum_map_cast_div]
    exact div_self (by exact_mod_cast hsum)

theorem C3_normalized_rows_witness :
    [[(1 : ℚ), 0], [1/2, 1/2]] =
      normalizeCM (confusionMatrix [0, 1, 1, 0] [0, 1, 0, 0]) :=
  (C3_normalized_rows [0, 1, 1, 0] [0, 1, 0, 0] [] none 50
    [[1, 0], [1/2, 1/2]]
    (by
      have h1 : confusionMatrix [0, 1, 1, 0] [0, 1, 0, 0] = [[2, 0], [1, 1]] :=
        by decide
      unfold plot_confusion_matrix
      norm_num [h1, normalizeCM])).1

/-- C5: with a well-typed first argument, an unsupported style sheet makes
both `plot_array` and `plot_dict` raise ValueError; with a supported style
sheet, an unsupported line style makes `plot_array` raise, and a
`use_linestyles` list containing any unsupported entry makes `plot_dict`
raise at its first unsupported entry. -/
theorem C5_unsupported_style_or_linestyle_rejected (available : List String)
    (st : PltState) (xs : List ℚ) (kvs : List (String × List ℚ))
    (use_label : Option String) (style_sheet ls bad : String)
    (lss : List String) (use_dpi : ℕ) (path : Option String)
    (show_plot : Bool) :
    (style_sheet ∉ available →
      (plot_array available st (.pyList xs) use_label style_sheet ls use_dpi
          path show_plot).1 = .error (.valueError (styleMsg style_sheet)) ∧
      (plot_dict available st (.dict (mkItems kvs)) style_sheet (some lss)
          use_dpi path show_plot).1 =
        .error (.valueError (styleMsg style_sheet))) ∧
    (style_sheet ∈ available → ls ∉ linestyles →
      (plot_array available st (.pyList xs) use_label style_sheet ls use_dpi
          path show_plot).1 = .error (.valueError (linestyleMsg ls))) ∧
    (style_sheet ∈ available → bad ∈ lss → bad ∉ linestyles →
      (lss.find? (fun s => !decide (s ∈ linestyles))).isSome = true ∧
      ∀ b, lss.find? (fun s => !decide (s ∈ linestyles)) = some b →
        b ∉ linestyles ∧
        (plot_dict available st (.dict (mkItems kvs)) style_sheet (some lss)
            use_dpi path show_plot).1 =
          .error (.valueError (linestyleMsg b))) := by
  refine ⟨?_, ?_, ?_⟩
  · intro hsty
    constructor
    · simp [plot_array, isList, isNdarray, hsty]
    · simp [plot_dict, checkItems_mkItems, hsty]
  · intro hsty hls
    simp [plot_array, isList, isNdarray, hsty, hls]
  · intro hsty hmem hbad
    constructor
    · cases hfind : lss.find? (fun s => !decide (s ∈ linestyles)) with
      | none =>
        have := List.find?_eq_none.mp hfind bad hmem
        simp at this
        exact absurd this hbad
      | some b => rfl
    · intro b hfind
      have hb := List.find?_some hfind
      simp only [Bool.not_eq_true', decide_eq_false_iff_not] at hb
      refine ⟨hb, ?_⟩
      simp [plot_dict, checkItems_mkItems, hsty, hfind]

theorem C5_unsupported_witness :
    (plot_array ["ggplot"] ⟨"c"⟩ (.pyList [1]) none "nope" "-" 20 none
        false).1 = .error (.valueError (styleMsg "nope")) ∧
    (plot_dict ["ggplot"] ⟨"c"⟩ (.dict (mkItems [("a", [1])])) "nope"
        (some ["-"]) 20 none false).1 =
      .error (.valueError (styleMsg "nope")) ∧
    (plot_array ["ggplot"] ⟨"c"⟩ (.pyList [1]) none "ggplot" "xx" 20 none
        false).1 = .error (.valueError (linestyleMsg "xx")) ∧
    (plot_dict ["ggplot"] ⟨"c"⟩ (.dict (mkItems [("a", [1])])) "ggplot"
        (some ["xx"]) 20 none false).1 =
      .error (.valueError (linestyleMsg "xx")) :=
  ⟨((C5_unsupported_style_or_linestyle_rejected ["ggplot"] ⟨"c"⟩ [1]
      [("a", [1])] none "nope" "-" "xx" ["-"] 20 none false).1
      (by decide)).1,
   ((C5_unsupported_style_or_linestyle_rejected ["ggplot"] ⟨"c"⟩ [1]
      [("a", [1])] none "nope" "-" "xx" ["-"] 20 none false).1
      (by decide)).2,
   (C5_unsupported_style_or_linestyle_rejected ["ggplot"] ⟨"c"⟩ [1]
      [("a", [1])] none "ggplot" "xx" "xx" ["-"] 20 none false).2.1
      (by decide) (by decide),
   (((C5_unsupported_style_or_linestyle_rejected ["ggplot"] ⟨"c"⟩ [1]
      [("a", [1])] none "ggplot" "-" "xx" ["xx"] 20 none false).2.2
      (by decide) (by decide) (by decide)).2 "xx" (by decide)).2⟩

lemma plot_dict_valueError_effects (available : List String) (st : PltState)
    (d : PyDictArg) (style_sheet : String) (ulss : Option (List String))
    (use_dpi : ℕ) (path : Option String) (show_plot : Bool) (m : String)
    (hm : (plot_dict available st d style_sheet ulss use_dpi path
        show_plot).1 = .error (.valueError m)) :
    (plot_dict available st d style_sheet ulss use_dpi path
        show_plot).2.1.all isStyleUse = true := by
  cases d with
  | notDict => rfl
  | dict items =>
    cases hchk : checkItems items with
    | error e => simp [plot_dict, hchk]
    | ok u =>
      cases u
      by_cases hsty : style_sheet ∈ available
      · cases ulss with
        | none =>
          cases hser : (plotSeries (List.replicate items.length "-") items
              0).1 with
          | error e =>
            have he := plotSeries_error_eq _ _ _ _ hser
            subst he
            simp [plot_dict, hchk, hsty, hser] at hm
          | ok u2 =>
            cases u2
            simp [plot_dict, hchk, hsty, hser] at hm
        | some l =>
          cases hfind : l.find? (fun s => !decide (s ∈ linestyles)) with
          | some b => simp [plot_dict, hchk, hsty, hfind, isStyleUse]
          | none =>
            cases hser : (plotSeries l items 0).1 with
            | error e =>
              have he := plotSeries_error_eq _ _ _ _ hser
              subst he
              simp [plot_dict, hchk, hsty, hfind, hser] at hm
            | ok u2 =>
              cases u2
              simp [plot_dict, hchk, hsty, hfind, hser] at hm
      · simp [plot_dict, hchk, hsty]

/-- C6 counterexample: a `plot_array` call rejected at the line-style check
has already changed the active style sheet: with the style previously
"classic", the rejected call leaves "ggplot" active, so the plotting
library's global state differs from before the call. -/
theorem C6_style_state_counterexample :
    (plot_array ["ggplot"] ⟨"classic"⟩ (.pyList [1]) none "ggplot" "x" 20
        none false).1 = .error (.valueError (linestyleMsg "x")) ∧
    (plot_array ["ggplot"] ⟨"classic"⟩ (.pyList [1]) none "ggplot" "x" 20
        none false).2.2 ≠ ⟨"classic"⟩ := by decide

/-- C6 (amended): a call rejected with a validation error renders no line,
saves no file and shows nothing (its trace holds at most the style-sheet
change), and a call rejected at the argument-type or style-sheet check
leaves the active style sheet unchanged; but a call rejected at the
line-style check has already applied the requested style sheet, so the
library's global state is not always unchanged. -/
theorem C6_no_output_on_rejection (available : List String) (st : PltState)
    (array : PyArray) (d : PyDictArg) (use_label : Option String)
    (style_sheet ls : String) (ulss : Option (List String)) (use_dpi : ℕ)
    (path : Option String) (show_plot : Bool) (y_true y_pred : List ℤ)
    (classes : List String) (normalize : Bool) (image : Option String)
    (dpi : ℕ) :
    (∀ m, (plot_array available st array use_label style_sheet ls use_dpi
        path show_plot).1 = .error (.valueError m) →
      (plot_array available st array use_label style_sheet ls use_dpi path
          show_plot).2.1.all isStyleUse = true) ∧
    ((!isList array || isNdarray array) = true →
      (plot_array available st array use_label style_sheet ls use_dpi path
          show_plot).2.2 = st) ∧
    (style_sheet ∉ available →
      (plot_array available st array use_label style_sheet ls use_dpi path
          show_plot).2.2 = st) ∧
    (∀ m, (plot_dict available st d style_sheet ulss use_dpi path
        show_plot).1 = .error (.valueError m) →
      (plot_dict available st d style_sheet ulss use_dpi path
          show_plot).2.1.all isStyleUse = true) ∧
    (d = .notDict →
      (plot_dict available st d style_sheet ulss use_dpi path
          show_plot).2.2 = st) ∧
    (style_sheet ∉ available →
      (plot_dict available st d style_sheet ulss use_dpi path
          show_plot).2.2 = st) ∧
    (∀ e, (plot_confusion_matrix y_true y_pred classes normalize image
        dpi).result = .error e →
      (plot_confusion_matrix y_true y_pred classes normalize image
          dpi).effects = []) := by
  refine ⟨?_, ?_, ?_, ?_, ?_, ?_, ?_⟩
  · intro m hm
    by_cases h1 : (!isList array || isNdarray array) = true
    · simp [plot_array, h1]
    · by_cases hsty : style_sheet ∈ available
      · by_cases hls : ls ∈ linestyles
        · simp [plot_array, h1, hsty, hls] at hm
        · simp [plot_array, h1, hsty, hls, isStyleUse]
      · simp [plot_array, h1, hsty]
  · intro h1
    simp [plot_array, h1]
  · intro hsty
    by_cases h1 : (!isList array || isNdarray array) = true
    · simp [plot_array, h1]
    · simp [plot_array, h1, hsty]
  · exact plot_dict_valueError_effects available st d style_sheet ulss
      use_dpi path show_plot
  · intro hd
    subst hd
    rfl
  · intro hsty
    cases d with
    | notDict => rfl
    | dict items =>
      cases hchk : checkItems items with
      | error e => simp [plot_dict, hchk]
      | ok u => cases u; simp [plot_dict, hchk, hsty]
  · intro e he
    by_cases h1 : y_true.length = y_pred.length
    · by_cases h2 : classes ≠ [] ∧ y_true.dedup.length ≠ classes.length
      · unfold plot_confusion_matrix
        rw [if_neg (by simp [h1]), if_pos h2]
      · unfold plot_confusion_matrix at he
        rw [if_neg (by simp [h1]), if_neg h2] at he
        simp at he
    · unfold plot_confusion_matrix
      rw [if_pos h1]

theorem C6_no_output_witness :
    ((plot_array ["ggplot"] ⟨"c"⟩ (.pyList [1]) none "ggplot" "x" 20 none
        false).2.1.all isStyleUse = true) ∧
    ((plot_array ["ggplot"] ⟨"c"⟩ (.pyList [1]) none "nope" "-" 20 none
        false).2.2 = ⟨"c"⟩) ∧
    ((plot_dict ["ggplot"] ⟨"c"⟩ .notDict "ggplot" none 20 none
        false).2.1.all isStyleUse = true) ∧
    ((plot_confusion_matrix [0] [0, 1] [] false none 50).effects = []) :=
  ⟨(C6_no_output_on_rejection ["ggplot"] ⟨"c"⟩ (.pyList [1]) .notDict none
      "ggplot" "x" none 20 none false [0] [0, 1] [] false none 50).1
      (linestyleMsg "x") (by decide),
   (C6_no_output_on_rejection ["ggplot"] ⟨"c"⟩ (.pyList [1]) .notDict none
      "nope" "-" none 20 none false [0] [0, 1] [] false none 50).2.2.1
      (by decide),
   (C6_no_output_on_rejection ["ggplot"] ⟨"c"⟩ (.pyList [1]) .notDict none
      "ggplot" "x" none 20 none false [0] [0, 1] [] false none 50).2.2.2.1
      dictMsg (by decide),
   (C6_no_output_on_rejection ["ggplot"] ⟨"c"⟩ (.pyList [1]) .notDict none
      "ggplot" "x" none 20 none false [0] [0, 1] [] false none
      50).2.2.2.2.2.2 (.valueError lenMsg) (by decide)⟩

/-- C7: on accepted calls the requested options reach the rendering calls
unchanged: `plot_array` hands `use_linestyle`/`use_label` to the line plot
and `path`/`use_dpi` to the file save; `plot_dict` hands each series the
caller's i-th linestyle with the series key as label, and `path`/`use_dpi`
to the file save; `plot_confusion_matrix` hands `image`/`dpi` to the file
save. -/
theorem C7_config_forwarded (available : List String) (st : PltState)
    (xs : List ℚ) (kvs : List (String × List ℚ)) (use_label : Option String)
    (style_sheet ls : String) (lss : List String) (use_dpi : ℕ)
    (path : Option String) (show_plot : Bool) (y_true y_pred : List ℤ)
    (normalize : Bool) (image : Option String) (dpi : ℕ)
    (hsty : style_sheet ∈ available) (hls : ls ∈ linestyles)
    (hall : ∀ l ∈ lss, l ∈ linestyles) (hlen : kvs.length ≤ lss.length)
    (hlencm : y_true.length = y_pred.length) :
    ((plot_array available st (.pyList xs) use_label style_sheet ls use_dpi
        path show_plot).1 = .ok () ∧
      .plotLine ls use_label ∈ (plot_array available st (.pyList xs)
        use_label style_sheet ls use_dpi path show_plot).2.1 ∧
      (∀ p, path = some p → .savefig p use_dpi ∈ (plot_array available st
        (.pyList xs) use_label style_sheet ls use_dpi path show_plot).2.1)) ∧
    ((plot_dict available st (.dict (mkItems kvs)) style_sheet (some lss)
        use_dpi path show_plot).1 = .ok () ∧
      (∀ i (hi : i < kvs.length), ∃ l, lss.get? i = some l ∧
        .plotLine l (some (kvs.get ⟨i, hi⟩).1) ∈ (plot_dict available st
          (.dict (mkItems kvs)) style_sheet (some lss) use_dpi path
          show_plot).2.1) ∧
      (∀ p, path = some p → .savefig p use_dpi ∈ (plot_dict available st
        (.dict (mkItems kvs)) style_sheet (some lss) use_dpi path
        show_plot).2.1)) ∧
    (∀ p, image = some p → CMEffect.savefig p dpi ∈
      (plot_confusion_matrix y_true y_pred [] normalize image
        dpi).effects) := by
  have hchk := checkItems_mkItems kvs
  have hfind : lss.find? (fun s => !decide (s ∈ linestyles)) = none :=
    List.find?_eq_none.mpr (fun x hx => by simpa using hall x hx)
  have hser := plotSeries_ok lss (mkItems kvs) 0 (by
    simpa [mkItems] using hlen)
  refine ⟨⟨?_, ?_, ?_⟩, ⟨?_, ?_, ?_⟩, ?_⟩
  · simp [plot_array, isList, isNdarray, hsty, hls]
  · simp [plot_array, isList, isNdarray, hsty, hls]
  · intro p hp
    subst hp
    simp [plot_array, isList, isNdarray, hsty, hls]
  · simp [plot_dict, hchk, hsty, hfind, hser.1]
  · intro i hi
    have hi2 : i < (mkItems kvs).length := by simpa [mkItems] using hi
    obtain ⟨l, hl, hm⟩ := hser.2 i hi2
    rw [Nat.zero_add] at hl
    refine ⟨l, hl, ?_⟩
    have hlab : keyLabel ((mkItems kvs).get ⟨i, hi2⟩).1 =
        some (kvs.get ⟨i, hi⟩).1 := by
      simp [mkItems, keyLabel, List.get_eq_getElem, List.getElem_map]
    rw [hlab] at hm
    simp [plot_dict, hchk, hsty, hfind, hser.1]
    exact Or.inl hm
  · intro p hp
    subst hp
    simp [plot_dict, hchk, hsty, hfind, hser.1]
  · intro p hp
    subst hp
    unfold plot_confusion_matrix
    rw [if_neg (by simp [hlencm]), if_neg (by simp)]
    simp

theorem C7_config_forwarded_witness :
    (plot_array ["ggplot"] ⟨"c"⟩ (.pyList [1]) (some "L") "ggplot" "-" 30
        (some "out.png") false).1 = .ok () ∧
    PlotEffect.plotLine "-" (some "L") ∈ (plot_array ["ggplot"] ⟨"c"⟩
      (.pyList [1]) (some "L") "ggplot" "-" 30 (some "out.png") false).2.1 ∧
    PlotEffect.savefig "out.png" 30 ∈ (plot_array ["ggplot"] ⟨"c"⟩
      (.pyList [1]) (some "L") "ggplot" "-" 30 (some "out.png") false).2.1 ∧
    PlotEffect.savefig "out.png" 30 ∈ (plot_dict ["ggplot"] ⟨"c"⟩
      (.dict (mkItems [("a", [1])])) "ggplot" (some ["--"]) 30
      (some "out.png") false).2.1 ∧
    CMEffect.savefig "cm.png" 40 ∈ (plot_confusion_matrix [0] [0] [] false
      (some "cm.png") 40).effects := by
  have h := C7_config_forwarded ["ggplot"] ⟨"c"⟩ [1] [("a", [1])] (some "L")
    "ggplot" "-" ["--"] 30 (some "out.png") false [0] [0] false
    (some "cm.png") 40 (by decide) (by decide) (by decide) (by decide)
    (by decide)
  exact ⟨h.1.1, h.1.2.1, h.1.2.2 "out.png" rfl, h.2.1.2.2 "out.png" rfl,
    h.2.2 "cm.png" rfl⟩
